import Mathlib

/-!
Shallow embedding of the `danielflood/microburbs` house-orientation scripts
(`src/house_orientation.py`, `src/house_orientation_v2.py`,
`src/improved_orientation.py`) over the real numbers, together with a
verification of the geometric core: bearing conversion, the 8-point compass
table, the frontage facing resolver, and the nearest-road projector.

Python floats are modelled by `ℝ` (IEEE rounding and signed zeros are not
modelled; where the distinction matters it is noted at the theorem).
-/

namespace PyMath

/-- Python float `a % b` for finite operands: the remainder has the sign of
`b`, so for `b > 0` it lies in `[0, b)`.  `a % b = a - b * floor (a / b)`. -/
noncomputable def fmod (a b : ℝ) : ℝ := a - b * ⌊a / b⌋

/-- Python `math.atan2 y x`, modelled as the argument of the complex number
`x + y*i`, which agrees with `atan2` on the reals (IEEE signed zeros are not
modelled, so here `atan2 0 0 = 0` and the argument of a negative real is `π`). -/
noncomputable def atan2 (y x : ℝ) : ℝ := Complex.arg ⟨x, y⟩

/-- Python `math.degrees`. -/
noncomputable def degrees (r : ℝ) : ℝ := r * 180 / Real.pi

/-- Python `math.hypot x y = sqrt (x^2 + y^2)`. -/
noncomputable def hypot (x y : ℝ) : ℝ := Real.sqrt (x ^ 2 + y ^ 2)

/-- Euclidean distance between two points of the plane, as computed by
`numpy.linalg.norm` of a difference of 2-vectors and by shapely distances. -/
noncomputable def eudist (p q : ℝ × ℝ) : ℝ := hypot (p.1 - q.1) (p.2 - q.2)

/-- Python `min(b :: rs, key=f)`, and equally the best-so-far update loop
with a strict `<` comparison: the first element attaining the least `f`-value
is kept (a later element replaces the current best only when strictly
smaller). -/
noncomputable def pickMin {α : Type} (f : α → ℝ) (b : α) : List α → α
  | [] => b
  | r :: rs => if f r < f b then pickMin f r rs else pickMin f b rs

theorem fmod_nonneg (a : ℝ) {b : ℝ} (hb : 0 < b) : 0 ≤ fmod a b := by
  have h : (⌊a / b⌋ : ℝ) * b ≤ a / b * b :=
    mul_le_mul_of_nonneg_right (Int.floor_le (a / b)) hb.le
  rw [div_mul_cancel₀ _ hb.ne'] at h
  unfold fmod
  nlinarith [h]

theorem fmod_lt (a : ℝ) {b : ℝ} (hb : 0 < b) : fmod a b < b := by
  have h : a / b * b < ((⌊a / b⌋ : ℝ) + 1) * b :=
    mul_lt_mul_of_pos_right (Int.lt_floor_add_one (a / b)) hb
  rw [div_mul_cancel₀ _ hb.ne'] at h
  unfold fmod
  nlinarith [h]

theorem fmod_add_int_mul (a : ℝ) (k : ℤ) {b : ℝ} (hb : b ≠ 0) :
    fmod (a + b * k) b = fmod a b := by
  unfold fmod
  have h : (a + b * k) / b = a / b + k := by
    field_simp
    ring
  rw [h, Int.floor_add_int]
  push_cast
  ring

theorem fmod_eq_self {a b : ℝ} (h0 : 0 ≤ a) (h1 : a < b) : fmod a b = a := by
  have hb : 0 < b := lt_of_le_of_lt h0 h1
  have hfl : ⌊a / b⌋ = 0 := by
    rw [Int.floor_eq_zero_iff]
    constructor
    · exact div_nonneg h0 hb.le
    · exact (div_lt_one hb).mpr h1
  unfold fmod
  rw [hfl]
  ring

theorem floor_eq_ofInt {x : ℝ} {n : ℤ} (h1 : (n : ℝ) ≤ x) (h2 : x < n + 1) :
    ⌊x⌋ = n :=
  Int.floor_eq_iff.mpr ⟨h1, h2⟩

/-- The strict-`<` best-so-far loop selects an element attaining the global
minimum of `f` over `b :: rs`, and it is the first such element in order:
everything strictly before it in the list has a strictly larger `f`-value. -/
theorem pickMin_spec {α : Type} (f : α → ℝ) :
    ∀ (rs : List α) (b : α),
      ∃ l1 l2, b :: rs = l1 ++ pickMin f b rs :: l2
        ∧ (∀ x ∈ b :: rs, f (pickMin f b rs) ≤ f x)
        ∧ (∀ x ∈ l1, f (pickMin f b rs) < f x) := by
  intro rs
  induction rs with
  | nil =>
    intro b
    refine ⟨[], [], rfl, ?_, by simp⟩
    intro x hx
    rw [List.mem_singleton.mp hx]
    simp [pickMin]
  | cons r rs ih =>
    intro b
    by_cases h : f r < f b
    · have hp : pickMin f b (r :: rs) = pickMin f r rs := by
        simp only [pickMin, if_pos h]
      obtain ⟨l1, l2, heq, hmin, hstrict⟩ := ih r
      refine ⟨b :: l1, l2, ?_, ?_, ?_⟩
      · rw [hp, List.cons_append, ← heq]
      · intro x hx
        rw [hp]
        rcases List.mem_cons.mp hx with rfl | hx2
        · have h1 : f (pickMin f r rs) ≤ f r := hmin r (List.mem_cons_self r rs)
          linarith
        · exact hmin x hx2
      · intro x hx
        rw [hp]
        rcases List.mem_cons.mp hx with rfl | hx2
        · have h1 : f (pickMin f r rs) ≤ f r := hmin r (List.mem_cons_self r rs)
          linarith
        · exact hstrict x hx2
    · have hp : pickMin f b (r :: rs) = pickMin f b rs := by
        simp only [pickMin, if_neg h]
      push_neg at h
      obtain ⟨l1, l2, heq, hmin, hstrict⟩ := ih b
      cases l1 with
      | nil =>
        simp only [List.nil_append] at heq
        injection heq with hb hl
        refine ⟨[], r :: rs, ?_, ?_, by simp⟩
        · rw [List.nil_append, hp, ← hb]
        · intro x hx
          rw [hp, ← hb]
          rcases List.mem_cons.mp hx with rfl | hx2
          · exact le_rfl
          · rcases List.mem_cons.mp hx2 with rfl | hx3
            · exact h
            · have := hmin x (List.mem_cons_of_mem b hx3)
              rw [← hb] at this
              exact this
      | cons a l1t =>
        rw [List.cons_append] at heq
        injection heq with hb hl
        subst hb
        refine ⟨b :: r :: l1t, l2, ?_, ?_, ?_⟩
        · rw [hp]
          simp only [List.cons_append]
          rw [← hl]
        · intro x hx
          rw [hp]
          rcases List.mem_cons.mp hx with rfl | hx2
          · exact hmin x (List.mem_cons_self x rs)
          · rcases List.mem_cons.mp hx2 with rfl | hx3
            · have h1 : f (pickMin f b rs) ≤ f b := hmin b (List.mem_cons_self b rs)
              linarith
            · exact hmin x (List.mem_cons_of_mem b hx3)
        · intro x hx
          rw [hp]
          rcases List.mem_cons.mp hx with rfl | hx2
          · exact hstrict x (List.mem_cons_self x l1t)
          · rcases List.mem_cons.mp hx2 with rfl | hx3
            · have hsb : f (pickMin f b rs) < f b := hstrict b (List.mem_cons_self b l1t)
              linarith
            · exact hstrict x (List.mem_cons_of_mem b hx3)

end PyMath

namespace HouseOrientation

open PyMath

/-- `normalize_angle_deg` from `src/house_orientation.py`: `a % 360.0`, then
`+ 360` if still negative (with real `%` of a positive modulus the second
branch never fires, exactly as with Python float `%`). -/
noncomputable def normalize_angle_deg (a : ℝ) : ℝ :=
  let a1 := fmod a 360
  if a1 < 0 then a1 + 360 else a1

/-- `bearing_from_vector` from `src/house_orientation.py`: image-plane vector
to compass bearing, `normalize (degrees (atan2 dx (-dy)))`. -/
noncomputable def bearing_from_vector (dx dy : ℝ) : ℝ :=
  normalize_angle_deg (degrees (atan2 dx (-dy)))

/-- The fixed 8-point compass table shared verbatim by all three scripts. -/
def dirs : List String := ["N", "NE", "E", "SE", "S", "SW", "W", "NW"]

/-- `compass_8` from `src/house_orientation.py`:
`dirs[int((bearing_deg + 22.5) // 45) % 8]`. -/
noncomputable def compass_8 (bearing_deg : ℝ) : String :=
  dirs.getD (⌊(bearing_deg + 22.5) / 45⌋ % 8).toNat ""

/-- `midpoint` from `src/house_orientation.py`. -/
noncomputable def midpoint (p1 p2 : ℝ × ℝ) : ℝ × ℝ :=
  ((p1.1 + p2.1) / 2, (p1.2 + p2.2) / 2)

/-- `subtract` from `src/house_orientation.py`. -/
noncomputable def subtract (p1 p0 : ℝ × ℝ) : ℝ × ℝ :=
  (p1.1 - p0.1, p1.2 - p0.2)

/-- `dot` from `src/house_orientation.py`. -/
noncomputable def dot (u v : ℝ × ℝ) : ℝ := u.1 * v.1 + u.2 * v.2

/-- `perp` from `src/house_orientation.py`: rotate 90° CCW in image
coordinates, `perp (x, y) = (-y, x)`. -/
noncomputable def perp (v : ℝ × ℝ) : ℝ × ℝ := (-v.2, v.1)

/-- `scale` from `src/house_orientation.py`. -/
noncomputable def scale (v : ℝ × ℝ) (s : ℝ) : ℝ × ℝ := (v.1 * s, v.2 * s)

/-- `unit` from `src/house_orientation.py`: normalize to length 1, returning
the zero-vector sentinel when the input has length 0. -/
noncomputable def unit (v : ℝ × ℝ) : ℝ × ℝ :=
  let n := hypot v.1 v.2
  if n ≠ 0 then (v.1 / n, v.2 / n) else (0, 0)

/-- The candidate normal `n_left` of `workflow_frontage`
(`src/house_orientation.py` line 112): `unit (perp (unit f))`. -/
noncomputable def frontage_n_left (h0 h1 : ℝ × ℝ) : ℝ × ℝ :=
  unit (perp (unit (subtract h1 h0)))

/-- The candidate normal `n_right` of `workflow_frontage`
(`src/house_orientation.py` line 113): `unit (scale n_left (-1))`. -/
noncomputable def frontage_n_right (h0 h1 : ℝ × ℝ) : ℝ × ℝ :=
  unit (scale (frontage_n_left h0 h1) (-1))

/-- The `to_street` direction of `workflow_frontage`
(`src/house_orientation.py` lines 116-118). -/
noncomputable def frontage_to_street (h0 h1 s0 s1 : ℝ × ℝ) : ℝ × ℝ :=
  unit (subtract (midpoint s0 s1) (midpoint h0 h1))

/-- The facing-normal selection of `workflow_frontage`
(`src/house_orientation.py` line 121):
`n_left if dot(n_left, to_street) >= dot(n_right, to_street) else n_right`. -/
noncomputable def frontage_n_face (h0 h1 s0 s1 : ℝ × ℝ) : ℝ × ℝ :=
  let nl := frontage_n_left h0 h1
  let nr := frontage_n_right h0 h1
  let ts := frontage_to_street h0 h1 s0 s1
  if dot nl ts ≥ dot nr ts then nl else nr

/-- The geometric core of `workflow_frontage` (`src/house_orientation.py`
lines 97-135), with the interactive point capture and plotting stripped:
from the two frontage points and the two street points to the
`(bearing, compass)` result. -/
noncomputable def workflow_frontage (h0 h1 s0 s1 : ℝ × ℝ) : ℝ × String :=
  let nf := frontage_n_face h0 h1 s0 s1
  let b := bearing_from_vector nf.1 nf.2
  (b, compass_8 b)

/-- The same selection as `frontage_n_face` but with the internal
`n_left` / `n_right` names swapped, written to the spec sentence that the
result must be invariant to the internal left/right naming: the slot called
`n_left` now holds the opposite normal and the `>=` comparison is kept
verbatim. -/
noncomputable def frontage_n_face_swapped (h0 h1 s0 s1 : ℝ × ℝ) : ℝ × ℝ :=
  let nl := frontage_n_right h0 h1
  let nr := frontage_n_left h0 h1
  let ts := frontage_to_street h0 h1 s0 s1
  if dot nl ts ≥ dot nr ts then nl else nr

end HouseOrientation

namespace Shapely

open PyMath HouseOrientation

/-- Modelled from the spec: shapely's nearest point on a single segment
(glossary: "the closest point to a reference point lying on a given line or
polyline, via orthogonal projection clamped to segment extents", spec §4.4
steps 1 and 3); shapely itself is a third-party dependency whose source is
not in this repository. -/
noncomputable def closestPointOnSeg (p a b : ℝ × ℝ) : ℝ × ℝ :=
  let d := subtract b a
  let len2 := dot d d
  if len2 = 0 then a
  else
    let t := dot (subtract p a) d / len2
    let tc := max 0 (min 1 t)
    (a.1 + tc * d.1, a.2 + tc * d.2)

/-- Modelled from the spec: the minimum Euclidean distance from `p` to the
segment `a b`, the distance from `p` to the clamped orthogonal projection
(spec §4.4 step 1). -/
noncomputable def distToSeg (p a b : ℝ × ℝ) : ℝ :=
  eudist p (closestPointOnSeg p a b)

/-- The consecutive segments of a polyline. -/
def segments (road : List (ℝ × ℝ)) : List ((ℝ × ℝ) × (ℝ × ℝ)) :=
  road.zip road.tail

/-- Modelled from the spec: shapely's `p.distance(line)` for a polyline,
"treating the Line as a connected polyline" (spec §4.4 step 1): the least
of the per-segment distances (0 when the polyline has fewer than 2 points,
a case the callers filter out). -/
noncomputable def distToRoad (p : ℝ × ℝ) (road : List (ℝ × ℝ)) : ℝ :=
  match segments road with
  | [] => 0
  | s :: ss =>
    ss.foldl (fun acc ab => min acc (distToSeg p ab.1 ab.2)) (distToSeg p s.1 s.2)

/-- Modelled from the spec: shapely's `line.interpolate(line.project(p))`,
the nearest point on the polyline to `p` (spec §4.4 step 3), taking the
first segment attaining the least distance. -/
noncomputable def nearestPointOnRoad (p : ℝ × ℝ) (road : List (ℝ × ℝ)) : ℝ × ℝ :=
  match segments road with
  | [] => (0, 0)
  | s :: ss =>
    closestPointOnSeg p
      (pickMin (fun ab => distToSeg p ab.1 ab.2) s ss).1
      (pickMin (fun ab => distToSeg p ab.1 ab.2) s ss).2

end Shapely

namespace Shapely

open PyMath HouseOrientation

theorem closestPointOnSeg_eq (p a b : ℝ × ℝ) :
    closestPointOnSeg p a b
      = if dot (subtract b a) (subtract b a) = 0 then a
        else
          (a.1 + max 0 (min 1 (dot (subtract p a) (subtract b a)
              / dot (subtract b a) (subtract b a))) * (subtract b a).1,
           a.2 + max 0 (min 1 (dot (subtract p a) (subtract b a)
              / dot (subtract b a) (subtract b a))) * (subtract b a).2) := rfl

theorem distToSeg_eq (p a b : ℝ × ℝ) :
    distToSeg p a b = eudist p (closestPointOnSeg p a b) := rfl

theorem distToRoad_pair (p a b : ℝ × ℝ) :
    distToRoad p [a, b] = distToSeg p a b := rfl

theorem nearestPointOnRoad_pair (p a b : ℝ × ℝ) :
    nearestPointOnRoad p [a, b] = closestPointOnSeg p a b := rfl

theorem dot_sub_self_pos {a b : ℝ × ℝ} (h : a ≠ b) :
    0 < dot (subtract b a) (subtract b a) := by
  have hcomp : a.1 ≠ b.1 ∨ a.2 ≠ b.2 := by
    by_contra hc
    push_neg at hc
    exact h (Prod.ext hc.1 hc.2)
  show 0 < (b.1 - a.1) * (b.1 - a.1) + (b.2 - a.2) * (b.2 - a.2)
  rcases hcomp with hx | hy
  · have h1 : 0 < (b.1 - a.1) * (b.1 - a.1) :=
      mul_self_pos.mpr (sub_ne_zero.mpr (Ne.symm hx))
    nlinarith [mul_self_nonneg (b.2 - a.2)]
  · have h1 : 0 < (b.2 - a.2) * (b.2 - a.2) :=
      mul_self_pos.mpr (sub_ne_zero.mpr (Ne.symm hy))
    nlinarith [mul_self_nonneg (b.1 - a.1)]

theorem dot_sub_linear (p a d : ℝ × ℝ) (t : ℝ) :
    dot (subtract p (a.1 + t * d.1, a.2 + t * d.2)) d
      = dot (subtract p a) d - t * dot d d := by
  unfold HouseOrientation.dot HouseOrientation.subtract
  show (p.1 - (a.1 + t * d.1)) * d.1 + (p.2 - (a.2 + t * d.2)) * d.2
    = (p.1 - a.1) * d.1 + (p.2 - a.2) * d.2 - t * (d.1 * d.1 + d.2 * d.2)
  ring

/-- Case analysis of the clamped projection on a non-degenerate segment:
in-range foot gives the orthogonal projection, out-of-range feet give the
nearer endpoint, and the reported distance is the distance to the
computed nearest point. -/
theorem closest_cases (p a b : ℝ × ℝ) (hab : a ≠ b) :
    (0 ≤ dot (subtract p a) (subtract b a) / dot (subtract b a) (subtract b a) →
      dot (subtract p a) (subtract b a) / dot (subtract b a) (subtract b a) ≤ 1 →
      closestPointOnSeg p a b
        = (a.1 + dot (subtract p a) (subtract b a) / dot (subtract b a) (subtract b a)
              * (subtract b a).1,
           a.2 + dot (subtract p a) (subtract b a) / dot (subtract b a) (subtract b a)
              * (subtract b a).2)
        ∧ dot (subtract p (closestPointOnSeg p a b)) (subtract b a) = 0)
    ∧ (dot (subtract p a) (subtract b a) / dot (subtract b a) (subtract b a) < 0 →
      closestPointOnSeg p a b = a ∧ eudist p a ≤ eudist p b)
    ∧ (1 < dot (subtract p a) (subtract b a) / dot (subtract b a) (subtract b a) →
      closestPointOnSeg p a b = b ∧ eudist p b ≤ eudist p a)
    ∧ distToSeg p a b = eudist p (closestPointOnSeg p a b) := by
  have hL : 0 < dot (subtract b a) (subtract b a) := dot_sub_self_pos hab
  have hLne : dot (subtract b a) (subtract b a) ≠ 0 := ne_of_gt hL
  refine ⟨?_, ?_, ?_, distToSeg_eq p a b⟩
  · intro ht0 ht1
    have hcp : closestPointOnSeg p a b
        = (a.1 + dot (subtract p a) (subtract b a) / dot (subtract b a) (subtract b a)
              * (subtract b a).1,
           a.2 + dot (subtract p a) (subtract b a) / dot (subtract b a) (subtract b a)
              * (subtract b a).2) := by
      rw [closestPointOnSeg_eq, if_neg hLne, min_eq_right ht1, max_eq_right ht0]
    refine ⟨hcp, ?_⟩
    rw [hcp, dot_sub_linear, div_mul_cancel₀ _ hLne, sub_self]
  · intro ht
    have hD : dot (subtract p a) (subtract b a) < 0 := by
      by_contra hcon
      push_neg at hcon
      exact absurd (div_nonneg hcon hL.le) (not_le.mpr ht)
    have hcp : closestPointOnSeg p a b = a := by
      rw [closestPointOnSeg_eq, if_neg hLne,
        min_eq_right (le_of_lt (lt_of_lt_of_le ht zero_le_one)),
        max_eq_left (le_of_lt ht)]
      apply Prod.ext
      · show a.1 + 0 * (subtract b a).1 = a.1
        ring
      · show a.2 + 0 * (subtract b a).2 = a.2
        ring
    refine ⟨hcp, ?_⟩
    unfold PyMath.eudist PyMath.hypot
    apply Real.sqrt_le_sqrt
    have hDexp : (p.1 - a.1) * (b.1 - a.1) + (p.2 - a.2) * (b.2 - a.2) < 0 := hD
    nlinarith [hDexp, sq_nonneg (b.1 - a.1), sq_nonneg (b.2 - a.2)]
  · intro ht
    have hDgt : dot (subtract b a) (subtract b a) < dot (subtract p a) (subtract b a) :=
      (one_lt_div hL).mp ht
    have hcp : closestPointOnSeg p a b = b := by
      rw [closestPointOnSeg_eq, if_neg hLne, min_eq_left (le_of_lt ht),
        max_eq_right zero_le_one]
      apply Prod.ext
      · show a.1 + 1 * (b.1 - a.1) = b.1
        ring
      · show a.2 + 1 * (b.2 - a.2) = b.2
        ring
    refine ⟨hcp, ?_⟩
    unfold PyMath.eudist PyMath.hypot
    apply Real.sqrt_le_sqrt
    have hDexp : (b.1 - a.1) * (b.1 - a.1) + (b.2 - a.2) * (b.2 - a.2)
        < (p.1 - a.1) * (b.1 - a.1) + (p.2 - a.2) * (b.2 - a.2) := hDgt
    have hLexp : 0 < (b.1 - a.1) * (b.1 - a.1) + (b.2 - a.2) * (b.2 - a.2) := hL
    nlinarith [hDexp, hLexp]

end Shapely

namespace ImprovedOrientation

open PyMath Shapely

/-- `bearing_from_point_to_point` from `src/improved_orientation.py`:
metric plane (x easting, y northing), `(90 - degrees (atan2 dy dx)) % 360`. -/
noncomputable def bearing_from_point_to_point (px py qx qy : ℝ) : ℝ :=
  fmod (90 - degrees (atan2 (qy - py) (qx - px))) 360

/-- `bearing_to_compass` from `src/improved_orientation.py`:
`dirs[int((bearing_deg + 22.5) // 45) % 8]`, the same table and formula as
`compass_8`. -/
noncomputable def bearing_to_compass (bearing_deg : ℝ) : String :=
  HouseOrientation.dirs.getD (⌊(bearing_deg + 22.5) / 45⌋ % 8).toNat ""

/-- One step of the nearest-road loop of `nearest_road_bearing_from_address`
(`src/improved_orientation.py` lines 77-85): `if d < best_dist` update.  The
initial `best = None, best_dist = float("inf")` state is modelled by `none`
(every real distance is below `inf`, so the first road always replaces it). -/
noncomputable def stepNearest (p : ℝ × ℝ)
    (acc : Option (List (ℝ × ℝ) × ℝ)) (road : List (ℝ × ℝ)) :
    Option (List (ℝ × ℝ) × ℝ) :=
  let d := distToRoad p road
  match acc with
  | none => some (road, d)
  | some (b, bd) => if d < bd then some (road, d) else some (b, bd)

/-- The nearest-road selection loop of `nearest_road_bearing_from_address`
(`src/improved_orientation.py` lines 77-85). -/
noncomputable def selectNearest (p : ℝ × ℝ) (roads : List (List (ℝ × ℝ))) :
    Option (List (ℝ × ℝ) × ℝ) :=
  roads.foldl (stepNearest p) none

/-- The result dictionary of `nearest_road_bearing_from_address`: every key
that can appear in either return path (the geographic `lat`/`lon` echo of the
geocoder input is pre-projection I/O and not modelled; the display-level
`round(_, 2)` of the reported numbers is likewise not modelled). -/
structure V1Result where
  bearing_deg : Option ℝ
  compass : Option String
  distance_to_road_m : Option ℝ
  note : Option String

/-- The geometric core of `nearest_road_bearing_from_address`
(`src/improved_orientation.py` lines 66-97) after the I/O boundary: the
geocoded point is already projected to metric `p` and the fetched roads are
already projected polylines.  Empty road list: the function returns the
dictionary `bearing_deg = None, note = "No roads found nearby"` (it does not
raise). -/
noncomputable def nearest_road_bearing (p : ℝ × ℝ) (roads : List (List (ℝ × ℝ))) :
    V1Result :=
  if roads = [] then ⟨none, none, none, some "No roads found nearby"⟩
  else
    match selectNearest p roads with
    | none => ⟨none, none, none, none⟩
    | some (best, best_dist) =>
      let q := nearestPointOnRoad p best
      let b := bearing_from_point_to_point p.1 p.2 q.1 q.2
      ⟨some b, some (bearing_to_compass b), some best_dist, none⟩

/-- The best-so-far fold, started after the first road has replaced the
`inf` sentinel, computes exactly the strict-`<` first minimum. -/
theorem selectNearest_eq (p : ℝ × ℝ) :
    ∀ (rs : List (List (ℝ × ℝ))) (b : List (ℝ × ℝ)),
      List.foldl (stepNearest p) (some (b, Shapely.distToRoad p b)) rs
        = some (PyMath.pickMin (Shapely.distToRoad p) b rs,
            Shapely.distToRoad p (PyMath.pickMin (Shapely.distToRoad p) b rs)) := by
  intro rs
  induction rs with
  | nil =>
    intro b
    simp [PyMath.pickMin]
  | cons r rs ih =>
    intro b
    by_cases h : Shapely.distToRoad p r < Shapely.distToRoad p b
    · have hstep : stepNearest p (some (b, Shapely.distToRoad p b)) r
          = some (r, Shapely.distToRoad p r) := by
        simp only [stepNearest]
        rw [if_pos h]
      have hpick : PyMath.pickMin (Shapely.distToRoad p) b (r :: rs)
          = PyMath.pickMin (Shapely.distToRoad p) r rs := by
        simp only [PyMath.pickMin, if_pos h]
      rw [List.foldl_cons, hstep, hpick]
      exact ih r
    · have hstep : stepNearest p (some (b, Shapely.distToRoad p b)) r
          = some (b, Shapely.distToRoad p b) := by
        simp only [stepNearest]
        rw [if_neg h]
      have hpick : PyMath.pickMin (Shapely.distToRoad p) b (r :: rs)
          = PyMath.pickMin (Shapely.distToRoad p) b rs := by
        simp only [PyMath.pickMin, if_neg h]
      rw [List.foldl_cons, hstep, hpick]
      exact ih b

end ImprovedOrientation

namespace HouseOrientationV2

open PyMath

/-- `bearing_from_vec` from `src/house_orientation_v2.py`:
`degrees (atan2 dx (-dy)) % 360`. -/
noncomputable def bearing_from_vec (dx dy : ℝ) : ℝ :=
  fmod (degrees (atan2 dx (-dy))) 360

/-- `compass8` from `src/house_orientation_v2.py`:
`dirs[int((b + 22.5) // 45) % 8]`. -/
noncomputable def compass8 (b : ℝ) : String :=
  HouseOrientation.dirs.getD (⌊(b + 22.5) / 45⌋ % 8).toNat ""

/-- Componentwise mean of a list of points, `numpy.mean(pts, axis=0)`. -/
noncomputable def mean_point (pts : List (ℝ × ℝ)) : ℝ × ℝ :=
  ((pts.map Prod.fst).sum / pts.length, (pts.map Prod.snd).sum / pts.length)

/-- The decision core of `find_orientation` (`src/house_orientation_v2.py`
lines 30-63) after OCR: from the detected `(text, centroid)` pairs and the
stringified target label to the `(bearing, compass)` result, with the two
`raise ValueError` paths as `Except.error` (image I/O, OCR and the
visualization are outside the core). -/
noncomputable def find_orientation (texts : List (String × (ℝ × ℝ)))
    (target : String) : Except String (ℝ × String) :=
  let house_points := (texts.filter (fun tp => tp.1 = target)).map Prod.snd
  if house_points = [] then Except.error ("Could not find label " ++ target)
  else
    let house := mean_point house_points
    match texts.filter (fun tp => tp.1.length > 4) with
    | [] => Except.error "No road label detected"
    | c :: cs =>
      let road_point := (pickMin (fun tp => eudist tp.2 house) c cs).2
      let b := bearing_from_vec (road_point.1 - house.1) (road_point.2 - house.2)
      Except.ok (b, compass8 b)

end HouseOrientationV2

namespace PyMath

theorem degrees_zero : degrees 0 = 0 := by
  unfold degrees
  rw [zero_mul, zero_div]

theorem degrees_pi_div_two : degrees (Real.pi / 2) = 90 := by
  unfold degrees
  field_simp
  ring

theorem atan2_zero_one : atan2 0 1 = 0 := by
  unfold atan2
  have h : ((⟨1, 0⟩ : ℂ)) = 1 := by
    apply Complex.ext <;> norm_num
  rw [h, Complex.arg_one]

theorem atan2_one_zero : atan2 1 0 = Real.pi / 2 := by
  unfold atan2
  have h : ((⟨0, 1⟩ : ℂ)) = Complex.I := by
    apply Complex.ext <;> norm_num [Complex.I_re, Complex.I_im]
  rw [h, Complex.arg_I]

theorem atan2_zero_zero : atan2 0 0 = 0 := by
  unfold atan2
  have h : ((⟨0, 0⟩ : ℂ)) = 0 := by
    apply Complex.ext <;> norm_num
  rw [h, Complex.arg_zero]

theorem hypot_zero : hypot 0 0 = 0 := by
  unfold hypot
  rw [show (0:ℝ) ^ 2 + 0 ^ 2 = 0 by norm_num, Real.sqrt_zero]

theorem hypot_eq_zero_iff (x y : ℝ) : hypot x y = 0 ↔ x = 0 ∧ y = 0 := by
  unfold hypot
  rw [Real.sqrt_eq_zero']
  constructor
  · intro h
    constructor <;> nlinarith [sq_nonneg x, sq_nonneg y]
  · rintro ⟨rfl, rfl⟩
    norm_num

theorem hypot_neg (x y : ℝ) : hypot (-x) (-y) = hypot x y := by
  unfold hypot
  ring_nf

theorem hypot_eval {x y n : ℝ} (hn : 0 ≤ n) (h : x ^ 2 + y ^ 2 = n ^ 2) :
    hypot x y = n := by
  unfold hypot
  rw [h, Real.sqrt_sq hn]

end PyMath

namespace HouseOrientation

open PyMath

theorem normalize_eq_fmod (a : ℝ) : normalize_angle_deg a = fmod a 360 := by
  unfold normalize_angle_deg
  rw [if_neg (not_lt.mpr (fmod_nonneg a (by norm_num)))]

theorem unit_eq_zero_of {v : ℝ × ℝ} (h : hypot v.1 v.2 = 0) : unit v = (0, 0) := by
  simp only [unit]
  rw [if_neg (not_not_intro h)]

theorem unit_eq_div_of {v : ℝ × ℝ} (h : hypot v.1 v.2 ≠ 0) :
    unit v = (v.1 / hypot v.1 v.2, v.2 / hypot v.1 v.2) := by
  simp only [unit]
  rw [if_pos h]

theorem unit_zero : unit (0, 0) = ((0 : ℝ), (0 : ℝ)) :=
  unit_eq_zero_of hypot_zero

theorem unit_norm_one {v : ℝ × ℝ} (h : hypot v.1 v.2 ≠ 0) :
    hypot (unit v).1 (unit v).2 = 1 := by
  have hpos : 0 < hypot v.1 v.2 :=
    lt_of_le_of_ne (Real.sqrt_nonneg _) (Ne.symm h)
  rw [unit_eq_div_of h]
  have hsq : v.1 ^ 2 + v.2 ^ 2 = hypot v.1 v.2 ^ 2 :=
    (Real.sq_sqrt (by positivity)).symm
  have h1 : (v.1 / hypot v.1 v.2) ^ 2 + (v.2 / hypot v.1 v.2) ^ 2 = 1 ^ 2 := by
    field_simp
    linarith [hsq]
  exact hypot_eval (by norm_num) h1

theorem unit_of_norm_one {w : ℝ × ℝ} (h : hypot w.1 w.2 = 1) : unit w = w := by
  rw [unit_eq_div_of (by rw [h]; norm_num), h]
  simp

theorem unit_idem (v : ℝ × ℝ) : unit (unit v) = unit v := by
  by_cases h : hypot v.1 v.2 = 0
  · rw [unit_eq_zero_of h]
    exact unit_zero
  · exact unit_of_norm_one (unit_norm_one h)

theorem unit_neg (v : ℝ × ℝ) : unit (-v.1, -v.2) = (-(unit v).1, -(unit v).2) := by
  have hh : hypot (-v.1) (-v.2) = hypot v.1 v.2 := hypot_neg v.1 v.2
  by_cases h : hypot v.1 v.2 = 0
  · rw [unit_eq_zero_of (v := (-v.1, -v.2)) (by rw [show ((-v.1, -v.2) : ℝ × ℝ).1 = -v.1 from rfl]; rw [show ((-v.1, -v.2) : ℝ × ℝ).2 = -v.2 from rfl]; rw [hh]; exact h)]
    rw [unit_eq_zero_of h]
    norm_num
  · rw [unit_eq_div_of (v := (-v.1, -v.2)) (by rw [show ((-v.1, -v.2) : ℝ × ℝ).1 = -v.1 from rfl]; rw [show ((-v.1, -v.2) : ℝ × ℝ).2 = -v.2 from rfl]; rw [hh]; exact h)]
    rw [unit_eq_div_of h]
    show (-v.1 / hypot (-v.1) (-v.2), -v.2 / hypot (-v.1) (-v.2)) = _
    rw [hh]
    simp [neg_div]

theorem unit_eval {x y n : ℝ} (hn : 0 < n) (h : x ^ 2 + y ^ 2 = n ^ 2) :
    unit (x, y) = (x / n, y / n) := by
  have hh : hypot x y = n := hypot_eval hn.le h
  rw [unit_eq_div_of (v := (x, y)) (by rw [show ((x, y) : ℝ × ℝ).1 = x from rfl, show ((x, y) : ℝ × ℝ).2 = y from rfl, hh]; exact hn.ne')]
  show (x / hypot x y, y / hypot x y) = _
  rw [hh]

theorem dot_neg_pair (u v : ℝ × ℝ) : dot (-u.1, -u.2) v = -(dot u v) := by
  unfold dot
  show -u.1 * v.1 + -u.2 * v.2 = _
  ring

theorem dot_scale_neg_one (u v : ℝ × ℝ) : dot (scale u (-1)) v = -(dot u v) := by
  unfold dot scale
  show u.1 * (-1) * v.1 + u.2 * (-1) * v.2 = _
  ring

theorem hypot_perp (v : ℝ × ℝ) :
    hypot (perp v).1 (perp v).2 = hypot v.1 v.2 := by
  unfold perp
  show hypot (-v.2) v.1 = _
  unfold hypot
  ring_nf

theorem frontage_n_right_eq_neg (h0 h1 : ℝ × ℝ) :
    frontage_n_right h0 h1
      = (-(frontage_n_left h0 h1).1, -(frontage_n_left h0 h1).2) := by
  unfold frontage_n_right frontage_n_left
  set w := perp (unit (subtract h1 h0)) with hw
  have hs : scale (unit w) (-1) = (-(unit w).1, -(unit w).2) := by
    unfold scale
    norm_num
  rw [hs, unit_neg, unit_idem]

theorem frontage_n_face_eq (h0 h1 s0 s1 : ℝ × ℝ) :
    frontage_n_face h0 h1 s0 s1
      = if dot (frontage_n_left h0 h1) (frontage_to_street h0 h1 s0 s1)
            ≥ dot (frontage_n_right h0 h1) (frontage_to_street h0 h1 s0 s1)
        then frontage_n_left h0 h1 else frontage_n_right h0 h1 := rfl

theorem frontage_n_face_swapped_eq (h0 h1 s0 s1 : ℝ × ℝ) :
    frontage_n_face_swapped h0 h1 s0 s1
      = if dot (frontage_n_right h0 h1) (frontage_to_street h0 h1 s0 s1)
            ≥ dot (frontage_n_left h0 h1) (frontage_to_street h0 h1 s0 s1)
        then frontage_n_right h0 h1 else frontage_n_left h0 h1 := rfl

theorem workflow_frontage_eq (h0 h1 s0 s1 : ℝ × ℝ) :
    workflow_frontage h0 h1 s0 s1
      = (bearing_from_vector (frontage_n_face h0 h1 s0 s1).1
            (frontage_n_face h0 h1 s0 s1).2,
         compass_8 (bearing_from_vector (frontage_n_face h0 h1 s0 s1).1
            (frontage_n_face h0 h1 s0 s1).2)) := rfl

theorem compass_8_zero : compass_8 0 = "N" := by
  unfold compass_8
  rw [show ((0 : ℝ) + 22.5) / 45 = 0.5 by norm_num,
    PyMath.floor_eq_ofInt (n := 0) (by norm_num) (by norm_num)]
  rfl

theorem bearing_from_vector_zero : bearing_from_vector 0 0 = 0 := by
  unfold bearing_from_vector
  rw [show -(0 : ℝ) = 0 by norm_num, PyMath.atan2_zero_zero, PyMath.degrees_zero,
    normalize_eq_fmod, PyMath.fmod_eq_self le_rfl (by norm_num)]

theorem dot_neg_right (u v : ℝ × ℝ) : dot u (-v.1, -v.2) = -(dot u v) := by
  unfold dot
  show u.1 * -v.1 + u.2 * -v.2 = _
  ring

theorem dot_unit_perp_self (v : ℝ × ℝ) : dot v (perp (unit v)) = 0 := by
  by_cases h : PyMath.hypot v.1 v.2 = 0
  · rw [unit_eq_zero_of h]
    unfold perp dot
    norm_num
  · rw [unit_eq_div_of h]
    unfold perp dot
    show v.1 * -(v.2 / PyMath.hypot v.1 v.2) + v.2 * (v.1 / PyMath.hypot v.1 v.2) = 0
    ring

theorem hypot_subtract_ne_zero {h0 h1 : ℝ × ℝ} (hne : h0 ≠ h1) :
    PyMath.hypot (subtract h1 h0).1 (subtract h1 h0).2 ≠ 0 := by
  intro hzero
  obtain ⟨hx, hy⟩ := (PyMath.hypot_eq_zero_iff _ _).mp hzero
  apply hne
  have hx1 : h1.1 - h0.1 = 0 := hx
  have hy1 : h1.2 - h0.2 = 0 := hy
  exact Prod.ext (by linarith) (by linarith)

/-- The behaviour of the line-121 conditional of `workflow_frontage`, stated
over the two candidate normals (with `nr` the exact negation of `nl`, as the
code guarantees): the selected candidate has the not-smaller dot product with
`to_street`, a tie selects the first (`nl`) slot, and off ties the selection
is invariant to which candidate sits in which slot. -/
theorem select_spec (nl nr ts : ℝ × ℝ) (hneg : nr = (-nl.1, -nl.2)) :
    (dot (if dot nl ts ≥ dot nr ts then nl else nr) ts
       ≥ dot (scale (if dot nl ts ≥ dot nr ts then nl else nr) (-1)) ts)
    ∧ (dot nl ts = dot nr ts → (if dot nl ts ≥ dot nr ts then nl else nr) = nl)
    ∧ (dot nl ts ≠ dot nr ts →
        (if dot nr ts ≥ dot nl ts then nr else nl)
          = (if dot nl ts ≥ dot nr ts then nl else nr)) := by
  have hdot : dot nr ts = -(dot nl ts) := by
    rw [hneg, dot_neg_pair]
  refine ⟨?_, ?_, ?_⟩
  · rw [dot_scale_neg_one]
    split_ifs with hc
    · linarith
    · push_neg at hc
      linarith
  · intro htie
    rw [if_pos (ge_of_eq htie)]
  · intro hne2
    rcases lt_or_gt_of_ne hne2 with hlt | hgt
    · have c1 : dot nr ts ≥ dot nl ts := le_of_lt hlt
      have c2 : ¬ (dot nl ts ≥ dot nr ts) := not_le.mpr hlt
      rw [if_pos c1, if_neg c2]
    · have c1 : ¬ (dot nr ts ≥ dot nl ts) := not_le.mpr hgt
      have c2 : dot nl ts ≥ dot nr ts := le_of_lt hgt
      rw [if_neg c1, if_pos c2]

end HouseOrientation

/-- C1 (amended): for every frontage segment `(h0, h1)` with `h0 ≠ h1` and
every street segment, the selected normal `n_face` has a dot product with
`to_street` at least that of the opposite normal `-n_face`; a tie (equal dot
products) returns `n_left`; and whenever the two dot products differ — but
not on an exact tie, where the two namings return opposite normals — the
selection is invariant under swapping the internal `n_left` / `n_right`
naming. -/
theorem C1_facing_normal_selection (h0 h1 s0 s1 : ℝ × ℝ) (_hne : h0 ≠ h1) :
    (HouseOrientation.dot (HouseOrientation.frontage_n_face h0 h1 s0 s1)
        (HouseOrientation.frontage_to_street h0 h1 s0 s1)
      ≥ HouseOrientation.dot
          (HouseOrientation.scale (HouseOrientation.frontage_n_face h0 h1 s0 s1) (-1))
          (HouseOrientation.frontage_to_street h0 h1 s0 s1))
    ∧ (HouseOrientation.dot (HouseOrientation.frontage_n_left h0 h1)
          (HouseOrientation.frontage_to_street h0 h1 s0 s1)
        = HouseOrientation.dot (HouseOrientation.frontage_n_right h0 h1)
            (HouseOrientation.frontage_to_street h0 h1 s0 s1) →
        HouseOrientation.frontage_n_face h0 h1 s0 s1
          = HouseOrientation.frontage_n_left h0 h1)
    ∧ (HouseOrientation.dot (HouseOrientation.frontage_n_left h0 h1)
          (HouseOrientation.frontage_to_street h0 h1 s0 s1)
        ≠ HouseOrientation.dot (HouseOrientation.frontage_n_right h0 h1)
            (HouseOrientation.frontage_to_street h0 h1 s0 s1) →
        HouseOrientation.frontage_n_face_swapped h0 h1 s0 s1
          = HouseOrientation.frontage_n_face h0 h1 s0 s1) := by
  rw [HouseOrientation.frontage_n_face_eq, HouseOrientation.frontage_n_face_swapped_eq]
  exact HouseOrientation.select_spec (HouseOrientation.frontage_n_left h0 h1)
    (HouseOrientation.frontage_n_right h0 h1)
    (HouseOrientation.frontage_to_street h0 h1 s0 s1)
    (HouseOrientation.frontage_n_right_eq_neg h0 h1)

/-- Counterexample to C1 as stated: on an exact tie (frontage `(0,0)-(1,0)`,
street points `(2,0)` and `(4,0)`, so `to_street = (1,0)` is perpendicular to
both candidate normals and both dot products are 0), the original naming
selects `(0, 1)` while the swapped naming selects `(0, -1)`: the selected
normal is not invariant under swapping the internal naming. -/
theorem C1_counterexample :
    HouseOrientation.frontage_n_face (0, 0) (1, 0) (2, 0) (4, 0) = ((0:ℝ), (1:ℝ))
    ∧ HouseOrientation.frontage_n_face_swapped (0, 0) (1, 0) (2, 0) (4, 0)
        = ((0:ℝ), (-1:ℝ))
    ∧ HouseOrientation.frontage_n_face_swapped (0, 0) (1, 0) (2, 0) (4, 0)
        ≠ HouseOrientation.frontage_n_face (0, 0) (1, 0) (2, 0) (4, 0) := by
  have hsub : HouseOrientation.subtract (1, 0) (0, 0) = ((1:ℝ), (0:ℝ)) := by
    unfold HouseOrientation.subtract
    norm_num
  have hu1 : HouseOrientation.unit ((1:ℝ), (0:ℝ)) = ((1:ℝ), (0:ℝ)) := by
    rw [HouseOrientation.unit_eval (n := 1) (by norm_num) (by norm_num)]
    norm_num
  have hperp : HouseOrientation.perp ((1:ℝ), (0:ℝ)) = ((0:ℝ), (1:ℝ)) := by
    unfold HouseOrientation.perp
    norm_num
  have hu2 : HouseOrientation.unit ((0:ℝ), (1:ℝ)) = ((0:ℝ), (1:ℝ)) := by
    rw [HouseOrientation.unit_eval (n := 1) (by norm_num) (by norm_num)]
    norm_num
  have hnl : HouseOrientation.frontage_n_left (0, 0) (1, 0) = ((0:ℝ), (1:ℝ)) := by
    unfold HouseOrientation.frontage_n_left
    rw [hsub, hu1, hperp, hu2]
  have hnr : HouseOrientation.frontage_n_right (0, 0) (1, 0) = ((0:ℝ), (-1:ℝ)) := by
    rw [HouseOrientation.frontage_n_right_eq_neg, hnl]
    norm_num
  have hts : HouseOrientation.frontage_to_street (0, 0) (1, 0) (2, 0) (4, 0)
      = ((1:ℝ), (0:ℝ)) := by
    unfold HouseOrientation.frontage_to_street HouseOrientation.midpoint
      HouseOrientation.subtract
    norm_num
    rw [HouseOrientation.unit_eval (n := 5/2) (by norm_num) (by norm_num)]
    norm_num
  have hA : HouseOrientation.frontage_n_face (0, 0) (1, 0) (2, 0) (4, 0)
      = ((0:ℝ), (1:ℝ)) := by
    rw [HouseOrientation.frontage_n_face_eq, hnl, hnr, hts,
      if_pos (by unfold HouseOrientation.dot; norm_num)]
  have hB : HouseOrientation.frontage_n_face_swapped (0, 0) (1, 0) (2, 0) (4, 0)
      = ((0:ℝ), (-1:ℝ)) := by
    rw [HouseOrientation.frontage_n_face_swapped_eq, hnl, hnr, hts,
      if_pos (by unfold HouseOrientation.dot; norm_num)]
  refine ⟨hA, hB, ?_⟩
  rw [hA, hB]
  norm_num [Prod.ext_iff]

/-- Witness for C1 at the non-degenerate input `h0 = (0,0)`, `h1 = (1,0)`,
street points `(0,1)` and `(2,1)`. -/
theorem C1_witness :
    ((0:ℝ), (0:ℝ)) ≠ ((1:ℝ), (0:ℝ))
    ∧ ((HouseOrientation.dot (HouseOrientation.frontage_n_face (0, 0) (1, 0) (0, 1) (2, 1))
          (HouseOrientation.frontage_to_street (0, 0) (1, 0) (0, 1) (2, 1))
        ≥ HouseOrientation.dot
            (HouseOrientation.scale
              (HouseOrientation.frontage_n_face (0, 0) (1, 0) (0, 1) (2, 1)) (-1))
            (HouseOrientation.frontage_to_street (0, 0) (1, 0) (0, 1) (2, 1)))
      ∧ (HouseOrientation.dot (HouseOrientation.frontage_n_left (0, 0) (1, 0))
            (HouseOrientation.frontage_to_street (0, 0) (1, 0) (0, 1) (2, 1))
          = HouseOrientation.dot (HouseOrientation.frontage_n_right (0, 0) (1, 0))
              (HouseOrientation.frontage_to_street (0, 0) (1, 0) (0, 1) (2, 1)) →
          HouseOrientation.frontage_n_face (0, 0) (1, 0) (0, 1) (2, 1)
            = HouseOrientation.frontage_n_left (0, 0) (1, 0))
      ∧ (HouseOrientation.dot (HouseOrientation.frontage_n_left (0, 0) (1, 0))
            (HouseOrientation.frontage_to_street (0, 0) (1, 0) (0, 1) (2, 1))
          ≠ HouseOrientation.dot (HouseOrientation.frontage_n_right (0, 0) (1, 0))
              (HouseOrientation.frontage_to_street (0, 0) (1, 0) (0, 1) (2, 1)) →
          HouseOrientation.frontage_n_face_swapped (0, 0) (1, 0) (0, 1) (2, 1)
            = HouseOrientation.frontage_n_face (0, 0) (1, 0) (0, 1) (2, 1))) :=
  ⟨by norm_num [Prod.ext_iff],
    C1_facing_normal_selection (0, 0) (1, 0) (0, 1) (2, 1)
      (by norm_num [Prod.ext_iff])⟩

/-- C2 is violated by the code: on a zero-length frontage (`h0 = h1`) the
workflow raises no error at all — there is no `DegenerateGeometryError`
anywhere in the repository — and instead propagates the zero-vector sentinel
of `unit` through `perp` and the dot-product comparison, returning the
spurious bearing `0.0` with compass label `"N"` in this real-number model
(CPython would produce `atan2(0.0, -0.0) = π`, hence `180.0` / `"S"`; either
way a bearing is returned rather than an error). -/
theorem C2_degenerate_frontage_returns_bearing :
    HouseOrientation.workflow_frontage (0, 0) (0, 0) (0, 0) (1, 0) = ((0:ℝ), "N") := by
  have hsub : HouseOrientation.subtract (0, 0) (0, 0) = ((0:ℝ), (0:ℝ)) := by
    unfold HouseOrientation.subtract
    norm_num
  have hperp : HouseOrientation.perp ((0:ℝ), (0:ℝ)) = ((0:ℝ), (0:ℝ)) := by
    unfold HouseOrientation.perp
    norm_num
  have hnl : HouseOrientation.frontage_n_left (0, 0) (0, 0) = ((0:ℝ), (0:ℝ)) := by
    unfold HouseOrientation.frontage_n_left
    rw [hsub, HouseOrientation.unit_zero, hperp, HouseOrientation.unit_zero]
  have hnr : HouseOrientation.frontage_n_right (0, 0) (0, 0) = ((0:ℝ), (0:ℝ)) := by
    rw [HouseOrientation.frontage_n_right_eq_neg, hnl]
    norm_num
  have hnf : HouseOrientation.frontage_n_face (0, 0) (0, 0) (0, 0) (1, 0)
      = ((0:ℝ), (0:ℝ)) := by
    rw [HouseOrientation.frontage_n_face_eq, hnl, hnr, if_pos le_rfl]
  rw [HouseOrientation.workflow_frontage_eq, hnf]
  show (HouseOrientation.bearing_from_vector 0 0,
    HouseOrientation.compass_8 (HouseOrientation.bearing_from_vector 0 0)) = _
  rw [HouseOrientation.bearing_from_vector_zero, HouseOrientation.compass_8_zero]

/-- C6: the image-plane bearing converter satisfies
`bearing_from_vector dx dy = normalize (degrees (atan2 dx (-dy)))` for every
vector (in particular every non-zero one), the v2 variant `bearing_from_vec`
agrees with it, and `bearing_from_vector 0 (-1) = 0` (up is north) while
`bearing_from_vector 1 0 = 90` (right is east). -/
theorem C6_image_plane_bearing :
    (∀ dx dy : ℝ,
      HouseOrientation.bearing_from_vector dx dy
          = HouseOrientation.normalize_angle_deg
              (PyMath.degrees (PyMath.atan2 dx (-dy)))
        ∧ HouseOrientationV2.bearing_from_vec dx dy
          = HouseOrientation.bearing_from_vector dx dy)
    ∧ HouseOrientation.bearing_from_vector 0 (-1) = 0
    ∧ HouseOrientation.bearing_from_vector 1 0 = 90 := by
  refine ⟨fun dx dy => ⟨rfl, ?_⟩, ?_, ?_⟩
  · unfold HouseOrientationV2.bearing_from_vec HouseOrientation.bearing_from_vector
    rw [HouseOrientation.normalize_eq_fmod]
  · unfold HouseOrientation.bearing_from_vector
    rw [show -(-1 : ℝ) = 1 by norm_num, PyMath.atan2_zero_one, PyMath.degrees_zero,
      HouseOrientation.normalize_eq_fmod, PyMath.fmod_eq_self le_rfl (by norm_num)]
  · unfold HouseOrientation.bearing_from_vector
    rw [show -(0 : ℝ) = 0 by norm_num, PyMath.atan2_one_zero, PyMath.degrees_pi_div_two,
      HouseOrientation.normalize_eq_fmod, PyMath.fmod_eq_self (by norm_num) (by norm_num)]

/-- C7: the metric-plane bearing converter satisfies
`bearing_from_point_to_point px py qx qy = (90 - degrees (atan2 dy dx)) % 360`
with `dx = qx - px`, `dy = qy - py`, and the bearing of direction `(0, 1)` is
0 (north) while that of `(1, 0)` is 90 (east). -/
theorem C7_metric_plane_bearing :
    (∀ px py qx qy : ℝ,
      ImprovedOrientation.bearing_from_point_to_point px py qx qy
        = PyMath.fmod (90 - PyMath.degrees (PyMath.atan2 (qy - py) (qx - px))) 360)
    ∧ ImprovedOrientation.bearing_from_point_to_point 0 0 0 1 = 0
    ∧ ImprovedOrientation.bearing_from_point_to_point 0 0 1 0 = 90 := by
  refine ⟨fun px py qx qy => rfl, ?_, ?_⟩
  · unfold ImprovedOrientation.bearing_from_point_to_point
    rw [show (1 : ℝ) - 0 = 1 by norm_num, show (0 : ℝ) - 0 = 0 by norm_num,
      PyMath.atan2_one_zero, PyMath.degrees_pi_div_two,
      show (90 : ℝ) - 90 = 0 by norm_num, PyMath.fmod_eq_self le_rfl (by norm_num)]
  · unfold ImprovedOrientation.bearing_from_point_to_point
    rw [show (0 : ℝ) - 0 = 0 by norm_num, show (1 : ℝ) - 0 = 1 by norm_num,
      PyMath.atan2_zero_one, PyMath.degrees_zero,
      show (90 : ℝ) - 0 = 90 by norm_num, PyMath.fmod_eq_self (by norm_num) (by norm_num)]

/-- C8: `compass_8` returns the label at index `floor ((b + 22.5) / 45) % 8`
of the fixed table `[N, NE, E, SE, S, SW, W, NW]` (here proved for every real
bearing, hence for every bearing in `[0, 360)`), the v2 `compass8` agrees
with it, and at sector edges it rounds toward the more clockwise label:
`compass_8 22.5 = "NE"`, `compass_8 0 = "N"`, `compass_8 359.9 = "N"`. -/
theorem C8_compass_sectors :
    (∀ b : ℝ,
      HouseOrientation.compass_8 b
          = HouseOrientation.dirs.getD (⌊(b + 22.5) / 45⌋ % 8).toNat ""
        ∧ HouseOrientationV2.compass8 b = HouseOrientation.compass_8 b)
    ∧ HouseOrientation.compass_8 22.5 = "NE"
    ∧ HouseOrientation.compass_8 0 = "N"
    ∧ HouseOrientation.compass_8 359.9 = "N" := by
  refine ⟨fun b => ⟨rfl, rfl⟩, ?_, ?_, ?_⟩
  · unfold HouseOrientation.compass_8
    rw [show ((22.5 : ℝ) + 22.5) / 45 = 1 by norm_num, Int.floor_one]
    rfl
  · unfold HouseOrientation.compass_8
    rw [show ((0 : ℝ) + 22.5) / 45 = 0.5 by norm_num,
      PyMath.floor_eq_ofInt (n := 0) (by norm_num) (by norm_num)]
    rfl
  · unfold HouseOrientation.compass_8
    rw [PyMath.floor_eq_ofInt (n := 8) (by norm_num) (by norm_num)]
    rfl

/-- C9: `normalize_angle_deg` lands in `[0, 360)` for every real input, and
for every bearing `b` in `[0, 360)` and every integer `k`,
`normalize_angle_deg (b + 360 * k) = b`. -/
theorem C9_normalize_range_periodic :
    (∀ a : ℝ, 0 ≤ HouseOrientation.normalize_angle_deg a
        ∧ HouseOrientation.normalize_angle_deg a < 360)
    ∧ (∀ b : ℝ, 0 ≤ b → b < 360 → ∀ k : ℤ,
        HouseOrientation.normalize_angle_deg (b + 360 * k) = b) := by
  constructor
  · intro a
    rw [HouseOrientation.normalize_eq_fmod]
    exact ⟨PyMath.fmod_nonneg a (by norm_num), PyMath.fmod_lt a (by norm_num)⟩
  · intro b h0 h1 k
    rw [HouseOrientation.normalize_eq_fmod,
      PyMath.fmod_add_int_mul b k (by norm_num), PyMath.fmod_eq_self h0 h1]

/-- Witness for C9 at `b = 10`, `k = 3`. -/
theorem C9_witness :
    (0 : ℝ) ≤ 10 ∧ (10 : ℝ) < 360
      ∧ HouseOrientation.normalize_angle_deg (10 + 360 * ((3 : ℤ) : ℝ)) = 10 :=
  ⟨by norm_num, by norm_num,
    C9_normalize_range_periodic.2 10 (by norm_num) (by norm_num) 3⟩

/-- C10: `perp v = (-v.2, v.1)` is orthogonal to `v` and has the same length,
and for a non-degenerate frontage the two candidate normals built by
`workflow_frontage` are unit vectors perpendicular to the frontage
direction. -/
theorem C10_perp_orthogonal_unit_normals :
    (∀ v : ℝ × ℝ,
      HouseOrientation.dot v (HouseOrientation.perp v) = 0
        ∧ PyMath.hypot (HouseOrientation.perp v).1 (HouseOrientation.perp v).2
            = PyMath.hypot v.1 v.2)
    ∧ (∀ h0 h1 : ℝ × ℝ, h0 ≠ h1 →
        PyMath.hypot (HouseOrientation.frontage_n_left h0 h1).1
            (HouseOrientation.frontage_n_left h0 h1).2 = 1
        ∧ PyMath.hypot (HouseOrientation.frontage_n_right h0 h1).1
            (HouseOrientation.frontage_n_right h0 h1).2 = 1
        ∧ HouseOrientation.dot (HouseOrientation.subtract h1 h0)
            (HouseOrientation.frontage_n_left h0 h1) = 0
        ∧ HouseOrientation.dot (HouseOrientation.subtract h1 h0)
            (HouseOrientation.frontage_n_right h0 h1) = 0) := by
  constructor
  · intro v
    constructor
    · unfold HouseOrientation.dot HouseOrientation.perp
      show v.1 * -v.2 + v.2 * v.1 = 0
      ring
    · exact HouseOrientation.hypot_perp v
  · intro h0 h1 hne
    have hf := HouseOrientation.hypot_subtract_ne_zero hne
    have hu1 : PyMath.hypot (HouseOrientation.unit (HouseOrientation.subtract h1 h0)).1
        (HouseOrientation.unit (HouseOrientation.subtract h1 h0)).2 = 1 :=
      HouseOrientation.unit_norm_one hf
    have hp1 : PyMath.hypot
        (HouseOrientation.perp (HouseOrientation.unit (HouseOrientation.subtract h1 h0))).1
        (HouseOrientation.perp (HouseOrientation.unit (HouseOrientation.subtract h1 h0))).2
        = 1 := by
      rw [HouseOrientation.hypot_perp]
      exact hu1
    have hnl1 : PyMath.hypot (HouseOrientation.frontage_n_left h0 h1).1
        (HouseOrientation.frontage_n_left h0 h1).2 = 1 := by
      unfold HouseOrientation.frontage_n_left
      exact HouseOrientation.unit_norm_one (by rw [hp1]; norm_num)
    have hnl_eq : HouseOrientation.frontage_n_left h0 h1
        = HouseOrientation.perp (HouseOrientation.unit (HouseOrientation.subtract h1 h0)) := by
      unfold HouseOrientation.frontage_n_left
      exact HouseOrientation.unit_of_norm_one hp1
    have hd1 : HouseOrientation.dot (HouseOrientation.subtract h1 h0)
        (HouseOrientation.frontage_n_left h0 h1) = 0 := by
      rw [hnl_eq]
      exact HouseOrientation.dot_unit_perp_self (HouseOrientation.subtract h1 h0)
    refine ⟨hnl1, ?_, hd1, ?_⟩
    · rw [HouseOrientation.frontage_n_right_eq_neg]
      show PyMath.hypot (-(HouseOrientation.frontage_n_left h0 h1).1)
        (-(HouseOrientation.frontage_n_left h0 h1).2) = 1
      rw [PyMath.hypot_neg]
      exact hnl1
    · rw [HouseOrientation.frontage_n_right_eq_neg, HouseOrientation.dot_neg_right, hd1]
      norm_num

/-- Witness for C10 at `h0 = (0,0)`, `h1 = (1,0)`. -/
theorem C10_witness :
    ((0:ℝ), (0:ℝ)) ≠ ((1:ℝ), (0:ℝ))
    ∧ (PyMath.hypot (HouseOrientation.frontage_n_left (0, 0) (1, 0)).1
          (HouseOrientation.frontage_n_left (0, 0) (1, 0)).2 = 1
      ∧ PyMath.hypot (HouseOrientation.frontage_n_right (0, 0) (1, 0)).1
          (HouseOrientation.frontage_n_right (0, 0) (1, 0)).2 = 1
      ∧ HouseOrientation.dot (HouseOrientation.subtract (1, 0) (0, 0))
          (HouseOrientation.frontage_n_left (0, 0) (1, 0)) = 0
      ∧ HouseOrientation.dot (HouseOrientation.subtract (1, 0) (0, 0))
          (HouseOrientation.frontage_n_right (0, 0) (1, 0)) = 0) :=
  ⟨by norm_num [Prod.ext_iff],
    C10_perp_orthogonal_unit_normals.2 (0, 0) (1, 0) (by norm_num [Prod.ext_iff])⟩

/-- C5: on a non-degenerate segment the nearest point is the orthogonal
projection of `p` when the perpendicular foot parameter `t` falls in
`[0, 1]` (and the residual is orthogonal to the segment direction), the
nearer endpoint otherwise, and the reported distance is the Euclidean
distance from `p` to that nearest point; in particular for `p = (0,0)` and
the single segment `(5,5)-(5,-5)` the nearest point is `(5,0)` and the
distance is `5.0`. -/
theorem C5_segment_nearest_point :
    (∀ p a b : ℝ × ℝ, a ≠ b →
      (0 ≤ HouseOrientation.dot (HouseOrientation.subtract p a) (HouseOrientation.subtract b a)
          / HouseOrientation.dot (HouseOrientation.subtract b a) (HouseOrientation.subtract b a) →
        HouseOrientation.dot (HouseOrientation.subtract p a) (HouseOrientation.subtract b a)
          / HouseOrientation.dot (HouseOrientation.subtract b a) (HouseOrientation.subtract b a) ≤ 1 →
        Shapely.closestPointOnSeg p a b
          = (a.1 + (HouseOrientation.dot (HouseOrientation.subtract p a) (HouseOrientation.subtract b a)
              / HouseOrientation.dot (HouseOrientation.subtract b a) (HouseOrientation.subtract b a))
                * (HouseOrientation.subtract b a).1,
             a.2 + (HouseOrientation.dot (HouseOrientation.subtract p a) (HouseOrientation.subtract b a)
              / HouseOrientation.dot (HouseOrientation.subtract b a) (HouseOrientation.subtract b a))
                * (HouseOrientation.subtract b a).2)
          ∧ HouseOrientation.dot
              (HouseOrientation.subtract p (Shapely.closestPointOnSeg p a b))
              (HouseOrientation.subtract b a) = 0)
      ∧ (HouseOrientation.dot (HouseOrientation.subtract p a) (HouseOrientation.subtract b a)
          / HouseOrientation.dot (HouseOrientation.subtract b a) (HouseOrientation.subtract b a) < 0 →
        Shapely.closestPointOnSeg p a b = a ∧ PyMath.eudist p a ≤ PyMath.eudist p b)
      ∧ (1 < HouseOrientation.dot (HouseOrientation.subtract p a) (HouseOrientation.subtract b a)
          / HouseOrientation.dot (HouseOrientation.subtract b a) (HouseOrientation.subtract b a) →
        Shapely.closestPointOnSeg p a b = b ∧ PyMath.eudist p b ≤ PyMath.eudist p a)
      ∧ Shapely.distToSeg p a b = PyMath.eudist p (Shapely.closestPointOnSeg p a b))
    ∧ Shapely.closestPointOnSeg (0, 0) (5, 5) (5, -5) = ((5:ℝ), (0:ℝ))
    ∧ Shapely.distToSeg (0, 0) (5, 5) (5, -5) = 5
    ∧ Shapely.distToRoad (0, 0) [(5, 5), (5, -5)] = 5
    ∧ Shapely.nearestPointOnRoad (0, 0) [(5, 5), (5, -5)] = ((5:ℝ), (0:ℝ)) := by
  have h1 : Shapely.closestPointOnSeg (0, 0) (5, 5) (5, -5) = ((5:ℝ), (0:ℝ)) := by
    rw [Shapely.closestPointOnSeg_eq,
      if_neg (by unfold HouseOrientation.dot HouseOrientation.subtract; norm_num)]
    unfold HouseOrientation.dot HouseOrientation.subtract
    norm_num [min_def, max_def]
  have h2 : Shapely.distToSeg (0, 0) (5, 5) (5, -5) = 5 := by
    rw [Shapely.distToSeg_eq, h1]
    unfold PyMath.eudist
    exact PyMath.hypot_eval (by norm_num) (by norm_num)
  refine ⟨fun p a b hab => Shapely.closest_cases p a b hab, h1, h2, ?_, ?_⟩
  · rw [Shapely.distToRoad_pair]
    exact h2
  · rw [Shapely.nearestPointOnRoad_pair]
    exact h1

/-- Witness for C5 at `p = (0,0)`, `a = (5,5)`, `b = (5,-5)`. -/
theorem C5_witness :
    ((5:ℝ), (5:ℝ)) ≠ ((5:ℝ), (-5:ℝ))
    ∧ ((0 ≤ HouseOrientation.dot (HouseOrientation.subtract (0, 0) (5, 5))
            (HouseOrientation.subtract (5, -5) (5, 5))
          / HouseOrientation.dot (HouseOrientation.subtract (5, -5) (5, 5))
            (HouseOrientation.subtract (5, -5) (5, 5)) →
        HouseOrientation.dot (HouseOrientation.subtract (0, 0) (5, 5))
            (HouseOrientation.subtract (5, -5) (5, 5))
          / HouseOrientation.dot (HouseOrientation.subtract (5, -5) (5, 5))
            (HouseOrientation.subtract (5, -5) (5, 5)) ≤ 1 →
        Shapely.closestPointOnSeg (0, 0) (5, 5) (5, -5)
          = ((5, 5).1 + (HouseOrientation.dot (HouseOrientation.subtract (0, 0) (5, 5))
                (HouseOrientation.subtract (5, -5) (5, 5))
              / HouseOrientation.dot (HouseOrientation.subtract (5, -5) (5, 5))
                (HouseOrientation.subtract (5, -5) (5, 5)))
                  * (HouseOrientation.subtract (5, -5) (5, 5)).1,
             (5, 5).2 + (HouseOrientation.dot (HouseOrientation.subtract (0, 0) (5, 5))
                (HouseOrientation.subtract (5, -5) (5, 5))
              / HouseOrientation.dot (HouseOrientation.subtract (5, -5) (5, 5))
                (HouseOrientation.subtract (5, -5) (5, 5)))
                  * (HouseOrientation.subtract (5, -5) (5, 5)).2)
          ∧ HouseOrientation.dot
              (HouseOrientation.subtract (0, 0) (Shapely.closestPointOnSeg (0, 0) (5, 5) (5, -5)))
              (HouseOrientation.subtract (5, -5) (5, 5)) = 0)
      ∧ (HouseOrientation.dot (HouseOrientation.subtract (0, 0) (5, 5))
            (HouseOrientation.subtract (5, -5) (5, 5))
          / HouseOrientation.dot (HouseOrientation.subtract (5, -5) (5, 5))
            (HouseOrientation.subtract (5, -5) (5, 5)) < 0 →
        Shapely.closestPointOnSeg (0, 0) (5, 5) (5, -5) = (5, 5)
          ∧ PyMath.eudist (0, 0) (5, 5) ≤ PyMath.eudist (0, 0) (5, -5))
      ∧ (1 < HouseOrientation.dot (HouseOrientation.subtract (0, 0) (5, 5))
            (HouseOrientation.subtract (5, -5) (5, 5))
          / HouseOrientation.dot (HouseOrientation.subtract (5, -5) (5, 5))
            (HouseOrientation.subtract (5, -5) (5, 5)) →
        Shapely.closestPointOnSeg (0, 0) (5, 5) (5, -5) = (5, -5)
          ∧ PyMath.eudist (0, 0) (5, -5) ≤ PyMath.eudist (0, 0) (5, 5))
      ∧ Shapely.distToSeg (0, 0) (5, 5) (5, -5)
          = PyMath.eudist (0, 0) (Shapely.closestPointOnSeg (0, 0) (5, 5) (5, -5))) :=
  ⟨by norm_num [Prod.ext_iff],
    C5_segment_nearest_point.1 (0, 0) (5, 5) (5, -5) (by norm_num [Prod.ext_iff])⟩

/-- C4: on a non-empty candidate list the nearest-road loop returns a road
splitting the list as `l1 ++ r :: l2` whose distance to the reference point
is the global minimum, together with that distance, and every road strictly
before it in input order has a strictly larger distance — so ties are broken
in favour of the first candidate encountered. -/
theorem C4_nearest_line_selection (p : ℝ × ℝ) (roads : List (List (ℝ × ℝ)))
    (hroads : roads ≠ []) :
    ∃ l1 l2 r, roads = l1 ++ r :: l2
      ∧ ImprovedOrientation.selectNearest p roads = some (r, Shapely.distToRoad p r)
      ∧ (∀ s ∈ roads, Shapely.distToRoad p r ≤ Shapely.distToRoad p s)
      ∧ (∀ s ∈ l1, Shapely.distToRoad p r < Shapely.distToRoad p s) := by
  match roads, hroads with
  | b :: rs, _ =>
    obtain ⟨l1, l2, heq, hmin, hstrict⟩ := PyMath.pickMin_spec (Shapely.distToRoad p) rs b
    refine ⟨l1, l2, PyMath.pickMin (Shapely.distToRoad p) b rs, heq, ?_, hmin, hstrict⟩
    unfold ImprovedOrientation.selectNearest
    rw [List.foldl_cons]
    have h0 : ImprovedOrientation.stepNearest p none b
        = some (b, Shapely.distToRoad p b) := rfl
    rw [h0]
    exact ImprovedOrientation.selectNearest_eq p rs b

/-- Witness for C4 at `p = (0,0)` with the two equidistant horizontal
segments `y = 1` and `y = -1`. -/
theorem C4_witness :
    (([[((0:ℝ), (1:ℝ)), ((1:ℝ), (1:ℝ))], [((0:ℝ), (-1:ℝ)), ((1:ℝ), (-1:ℝ))]]
        : List (List (ℝ × ℝ))) ≠ [])
    ∧ (∃ l1 l2 r,
        ([[((0:ℝ), (1:ℝ)), ((1:ℝ), (1:ℝ))], [((0:ℝ), (-1:ℝ)), ((1:ℝ), (-1:ℝ))]]
          : List (List (ℝ × ℝ))) = l1 ++ r :: l2
        ∧ ImprovedOrientation.selectNearest (0, 0)
            [[((0:ℝ), (1:ℝ)), ((1:ℝ), (1:ℝ))], [((0:ℝ), (-1:ℝ)), ((1:ℝ), (-1:ℝ))]]
            = some (r, Shapely.distToRoad (0, 0) r)
        ∧ (∀ s ∈ ([[((0:ℝ), (1:ℝ)), ((1:ℝ), (1:ℝ))], [((0:ℝ), (-1:ℝ)), ((1:ℝ), (-1:ℝ))]]
              : List (List (ℝ × ℝ))),
            Shapely.distToRoad (0, 0) r ≤ Shapely.distToRoad (0, 0) s)
        ∧ (∀ s ∈ l1, Shapely.distToRoad (0, 0) r < Shapely.distToRoad (0, 0) s)) :=
  ⟨by simp,
    C4_nearest_line_selection (0, 0)
      [[((0:ℝ), (1:ℝ)), ((1:ℝ), (1:ℝ))], [((0:ℝ), (-1:ℝ)), ((1:ℝ), (-1:ℝ))]]
      (by simp)⟩

/-- Counterexample to C3 as stated: with an empty candidate (road) list the
improved workflow does not fail at all — `nearest_road_bearing` returns the
sentinel result dictionary whose `bearing_deg` is `None` and whose note is
`"No roads found nearby"` instead of raising a "no candidates" error. -/
theorem C3_counterexample :
    ImprovedOrientation.nearest_road_bearing (0, 0) []
      = ⟨none, none, none, some "No roads found nearby"⟩ := by
  unfold ImprovedOrientation.nearest_road_bearing
  rw [if_pos rfl]

/-- C3 (amended): with an empty candidate collection neither workflow
produces a bearing value — the v2 OCR workflow fails with an error (the
"No road label detected" error when the house label was found, the
"Could not find label" error otherwise), while the improved nearest-road
workflow does not raise but returns the sentinel dictionary with
`bearing_deg = None` and note `"No roads found nearby"`. -/
theorem C3_empty_candidates (p : ℝ × ℝ) (texts : List (String × (ℝ × ℝ)))
    (target : String)
    (hroad : texts.filter (fun tp => tp.1.length > 4) = []) :
    (∃ msg, HouseOrientationV2.find_orientation texts target = Except.error msg)
    ∧ ImprovedOrientation.nearest_road_bearing p []
        = ⟨none, none, none, some "No roads found nearby"⟩ := by
  constructor
  · by_cases hh : ((texts.filter (fun tp => tp.1 = target)).map Prod.snd) = []
    · refine ⟨"Could not find label " ++ target, ?_⟩
      unfold HouseOrientationV2.find_orientation
      rw [if_pos hh]
    · refine ⟨"No road label detected", ?_⟩
      unfold HouseOrientationV2.find_orientation
      rw [if_neg hh, hroad]
  · unfold ImprovedOrientation.nearest_road_bearing
    rw [if_pos rfl]

/-- Witness for C3 at a text list with no word longer than 4 characters. -/
theorem C3_witness :
    ([(("ab" : String), ((0:ℝ), (0:ℝ)))].filter (fun tp => tp.1.length > 4) = [])
    ∧ ((∃ msg, HouseOrientationV2.find_orientation [("ab", ((0:ℝ), (0:ℝ)))] "13"
          = Except.error msg)
      ∧ ImprovedOrientation.nearest_road_bearing ((1:ℝ), (2:ℝ)) []
          = ⟨none, none, none, some "No roads found nearby"⟩) :=
  ⟨by simp; decide, C3_empty_candidates (1, 2) [("ab", ((0:ℝ), (0:ℝ)))] "13" (by simp; decide)⟩
